import Mathlib

/-
Verification of the avante-curl request-lifecycle core.

The definitions below are a shallow embedding of the Rust source in
crates/avante-curl/src.  session.rs contains two impl blocks for
RequestManager (a merge artifact); following the repository notes we embed
the second, complete implementation (the one with acknowledge_request,
cleanup and callbacks).  Wall-clock reads (timestamp_now) become an
explicit parameter now : Nat, DashMap becomes a function map
String -> Option _, the Arc-allocated cancellation flag becomes a record
carrying an allocation counter tid (so that distinct allocations are
distinct values), and closure invocation is recorded in an event trace.
-/

namespace AvanteCurl

/-- RequestState from session.rs: the nine lifecycle states. -/
inductive RequestState where
  | Init
  | Sending
  | Receiving
  | Complete
  | Error
  | Timeout
  | Cancelled
  | Idle
  | Acknowledged
  deriving DecidableEq, Repr

/-- Display impl for RequestState in session.rs. -/
def stateDisplay : RequestState → String
  | .Init => ("init")
  | .Sending => ("sending")
  | .Receiving => ("receiving")
  | .Complete => ("complete")
  | .Error => ("error")
  | .Timeout => ("timeout")
  | .Cancelled => ("cancelled")
  | .Idle => ("idle")
  | .Acknowledged => ("acknowledged")

/-- RequestInfo from session.rs: the per-request record.  Header maps are
association lists; the spec says insertion order is irrelevant. -/
structure RequestInfo where
  request_id : String
  state : RequestState
  status : Option Nat
  headers : Option (List (String × String))
  body : Option String
  error : Option String
  last_polled : Nat
  created_at : Nat
  updated_at : Nat
  deriving DecidableEq, Repr

/-- Arc AtomicBool cancellation flag.  tid is the allocation counter that
models pointer identity of Arc new, so tokens from distinct allocations
compare unequal; cancelled is the boolean value of the flag. -/
structure CancelToken where
  tid : Nat
  cancelled : Bool
  deriving DecidableEq, Repr

/-- CallbackHandlers from session.rs: whether each optional closure is
registered.  The closures themselves are host code; their invocations are
recorded in the manager trace. -/
structure CallbackHandlers where
  on_chunk : Bool
  on_complete : Bool
  on_error : Bool
  deriving DecidableEq, Repr

/-- One recorded closure invocation (handler call) by the manager. -/
inductive CbEvent where
  | onChunk (id : String) (data : String)
  | onComplete (id : String) (snap : RequestInfo)
  | onError (id : String) (msg : String)
  deriving DecidableEq, Repr

/-- RequestManager from session.rs (second impl block).  The three DashMaps
become function maps; last_cleanup is the AtomicU64; next_token is the
allocation counter backing CancelToken identity; events is the trace of
closure invocations. -/
structure RequestManager where
  requests : String → Option RequestInfo
  callbacks : String → Option CallbackHandlers
  cancellations : String → Option CancelToken
  idle_timeout : Nat
  cleanup_interval : Nat
  last_cleanup : Nat
  next_token : Nat
  events : List CbEvent

/-- Pointwise insert-or-replace on a function map (DashMap insert). -/
def upd {β : Type} (f : String → Option β) (k : String) (v : β) : String → Option β :=
  fun q => if q = k then some v else f q

/-- RequestManager new with the default timeouts (3600 s idle, 300 s
cleanup interval); last_cleanup starts at the construction time. -/
def RequestManager.new (now : Nat) : RequestManager where
  requests := fun _ => none
  callbacks := fun _ => none
  cancellations := fun _ => none
  idle_timeout := 3600
  cleanup_interval := 300
  last_cleanup := now
  next_token := 0
  events := []

/-- RequestManager with_config from session.rs. -/
def RequestManager.with_config (now idle_timeout cleanup_interval : Nat) : RequestManager where
  requests := fun _ => none
  callbacks := fun _ => none
  cancellations := fun _ => none
  idle_timeout := idle_timeout
  cleanup_interval := cleanup_interval
  last_cleanup := now
  next_token := 0
  events := []

/-- Single-quote character, as used by the format strings in session.rs. -/
def sq : String := String.singleton (Char.ofNat 39)

/-- The error message built by init_request when the request is still in
progress. -/
def alreadyInProgressMsg (id : String) (s : RequestState) : String :=
  ("Request ") ++ sq ++ id ++ sq ++ (" is already in progress with state: ") ++ stateDisplay s

/-- The message synthesized by Session get_response for an unknown id. -/
def notFoundMsg (id : String) : String :=
  ("Request ") ++ sq ++ id ++ sq ++ (" not found")

/-- RequestManager init_request.  The cancel flag is allocated at function
entry (Arc new in the Rust source), hence next_token advances on every
call; on the in-progress branch the freshly allocated flag is dropped
unused. -/
def RequestManager.init_request (m : RequestManager) (now : Nat) (id : String) :
    RequestManager × Except String CancelToken :=
  let cancel_flag : CancelToken := { tid := m.next_token, cancelled := false }
  let m0 : RequestManager := { m with next_token := m.next_token + 1 }
  match m.requests id with
  | some req =>
    match req.state with
    | .Complete | .Error | .Timeout | .Cancelled | .Idle =>
      let req2 : RequestInfo :=
        { req with state := .Init, status := none, headers := none, body := none,
                   error := none, last_polled := now, updated_at := now }
      ({ m0 with requests := upd m0.requests id req2,
                 cancellations := upd m0.cancellations id cancel_flag },
       Except.ok cancel_flag)
    | _ => (m0, Except.error (alreadyInProgressMsg id req.state))
  | none =>
    let fresh : RequestInfo :=
      { request_id := id, state := .Init, status := none, headers := none,
        body := none, error := none, last_polled := now, created_at := now,
        updated_at := now }
    ({ m0 with requests := upd m0.requests id fresh,
               cancellations := upd m0.cancellations id cancel_flag },
     Except.ok cancel_flag)

/-- RequestManager set_callbacks. -/
def RequestManager.set_callbacks (m : RequestManager) (id : String)
    (cb : CallbackHandlers) : RequestManager :=
  { m with callbacks := upd m.callbacks id cb }

/-- RequestManager handle_chunk: sets Receiving, appends to the body,
bumps updated_at, then invokes on_chunk if registered; returns whether a
handler ran.  Unknown id: returns false, untouched. -/
def RequestManager.handle_chunk (m : RequestManager) (now : Nat) (id data : String) :
    RequestManager × Bool :=
  match m.requests id with
  | some req =>
    let newBody : String :=
      match req.body with
      | some b => b ++ data
      | none => data
    let req2 : RequestInfo := { req with state := .Receiving, updated_at := now, body := some newBody }
    let m1 : RequestManager := { m with requests := upd m.requests id req2 }
    match m.callbacks id with
    | some cb =>
      if cb.on_chunk then
        ({ m1 with events := m1.events ++ [CbEvent.onChunk id data] }, true)
      else (m1, false)
    | none => (m1, false)
  | none => (m, false)

/-- RequestManager set_response: overwrites status, headers and body and
bumps updated_at; does not touch state or error.  No-op for unknown id. -/
def RequestManager.set_response (m : RequestManager) (now : Nat) (id : String)
    (status : Nat) (headers : List (String × String)) (body : String) : RequestManager :=
  match m.requests id with
  | some req =>
    { m with
      requests := upd m.requests id
        ({ req with status := some status, headers := some headers,
                    body := some body, updated_at := now }) }
  | none => m

/-- RequestManager set_completed: sets Complete, bumps updated_at, then
invokes on_complete with the snapshot.  Early return for unknown id, so no
callback fires in that case. -/
def RequestManager.set_completed (m : RequestManager) (now : Nat) (id : String) : RequestManager :=
  match m.requests id with
  | some req =>
    let req2 : RequestInfo := { req with state := .Complete, updated_at := now }
    let m1 : RequestManager := { m with requests := upd m.requests id req2 }
    match m.callbacks id with
    | some cb =>
      if cb.on_complete then
        { m1 with events := m1.events ++ [CbEvent.onComplete id req2] }
      else m1
    | none => m1
  | none => m

/-- RequestManager set_error: sets Error and the message, bumps
updated_at, then invokes on_error.  The callback block is outside the
record lookup in the source, so on_error fires even when no record
exists. -/
def RequestManager.set_error (m : RequestManager) (now : Nat) (id msg : String) : RequestManager :=
  let m1 : RequestManager :=
    match m.requests id with
    | some req =>
      { m with
        requests := upd m.requests id
          ({ req with state := .Error, error := some msg, updated_at := now }) }
    | none => m
  match m1.callbacks id with
  | some cb =>
    if cb.on_error then
      { m1 with events := m1.events ++ [CbEvent.onError id msg] }
    else m1
  | none => m1

/-- RequestManager acknowledge_request: succeeds only from a terminal
state. -/
def RequestManager.acknowledge_request (m : RequestManager) (now : Nat) (id : String) :
    RequestManager × Bool :=
  match m.requests id with
  | some req =>
    match req.state with
    | .Complete | .Error | .Timeout | .Cancelled =>
      ({ m with
         requests := upd m.requests id
           ({ req with state := .Acknowledged, updated_at := now }) }, true)
    | _ => (m, false)
  | none => (m, false)

/-- RequestManager should_cancel. -/
def RequestManager.should_cancel (m : RequestManager) (id : String) : Bool :=
  match m.cancellations id with
  | some t => t.cancelled
  | none => false

/-- RequestManager cancel_request: stores true into the flag, then sets
Cancelled with the fixed message. -/
def RequestManager.cancel_request (m : RequestManager) (now : Nat) (id : String) : RequestManager :=
  let m1 : RequestManager :=
    match m.cancellations id with
    | some t => { m with cancellations := upd m.cancellations id { t with cancelled := true } }
    | none => m
  match m1.requests id with
  | some req =>
    { m1 with
      requests := upd m1.requests id
        ({ req with state := .Cancelled, error := some ("Request was cancelled"), updated_at := now }) }
  | none => m1

/-- The state set of the matches macro in cleanup_idle_requests: states
that are already settled (terminal, Idle or Acknowledged). -/
def cleanupSettledStates : List RequestState :=
  [.Complete, .Error, .Timeout, .Cancelled, .Idle, .Acknowledged]

/-- RequestManager cleanup_idle_requests.  The source computes to_remove
from the pre-pass states, then marks still-active over-idle records Idle,
then removes; each record is decided independently of the others, which
the pointwise form below reproduces exactly. -/
def RequestManager.cleanup_idle_requests (m : RequestManager) (now : Nat) : RequestManager :=
  let removeCond : RequestInfo → Prop := fun r =>
    r.state = .Acknowledged ∨
      (now - r.last_polled > m.idle_timeout ∧ r.state ∈ cleanupSettledStates)
  let idleCond : RequestInfo → Prop := fun r =>
    now - r.last_polled > m.idle_timeout ∧ r.state ∉ cleanupSettledStates
  { m with
    requests := fun k =>
      match m.requests k with
      | some r =>
        if removeCond r then none
        else if idleCond r then some { r with state := .Idle, updated_at := now }
        else some r
      | none => none
    callbacks := fun k =>
      match m.requests k with
      | some r => if removeCond r then none else m.callbacks k
      | none => m.callbacks k
    cancellations := fun k =>
      match m.requests k with
      | some r => if removeCond r then none else m.cancellations k
      | none => m.cancellations k }

/-- RequestManager try_cleanup: runs the cleanup pass when the interval
has elapsed; the compare-and-swap always succeeds in this sequential
model. -/
def RequestManager.try_cleanup (m : RequestManager) (now : Nat) : RequestManager :=
  if now - m.last_cleanup > m.cleanup_interval then
    RequestManager.cleanup_idle_requests { m with last_cleanup := now } now
  else m

/-- RequestManager poll_request: opportunistic cleanup, then stamp
last_polled and apply the 30-second inactivity timeout to Sending or
Receiving records; returns the snapshot. -/
def RequestManager.poll_request (m : RequestManager) (now : Nat) (id : String) :
    RequestManager × Option RequestInfo :=
  let m1 := m.try_cleanup now
  match m1.requests id with
  | some req =>
    let req2 : RequestInfo := { req with last_polled := now }
    let req3 : RequestInfo :=
      if (req2.state = .Sending ∨ req2.state = .Receiving) ∧ now - req2.updated_at > 30 then
        { req2 with state := .Timeout, error := some ("Request timed out") }
      else req2
    ({ m1 with requests := upd m1.requests id req3 }, some req3)
  | none => (m1, none)

/-- Session from session.rs: a facade owning one RequestManager. -/
structure Session where
  request_manager : RequestManager

/-- Session new. -/
def Session.new (now : Nat) : Session :=
  { request_manager := RequestManager.new now }

/-- Session init_request. -/
def Session.init_request (s : Session) (now : Nat) (id : String) :
    Session × Except String CancelToken :=
  let (m, r) := s.request_manager.init_request now id
  ({ request_manager := m }, r)

/-- Session get_response: a poll; for an unknown id a synthesized record
in Error state with a not-found message is returned instead. -/
def Session.get_response (s : Session) (now : Nat) (id : String) : Session × RequestInfo :=
  match s.request_manager.poll_request now id with
  | (m1, some info) => ({ request_manager := m1 }, info)
  | (m1, none) =>
    ({ request_manager := m1 },
     { request_id := id, state := .Error, status := none, headers := none,
       body := none, error := some (notFoundMsg id), last_polled := now,
       created_at := now, updated_at := now })

/-- Session set_response. -/
def Session.set_response (s : Session) (now : Nat) (id : String) (status : Nat)
    (headers : List (String × String)) (body : String) : Session :=
  { request_manager := s.request_manager.set_response now id status headers body }

/-- Session set_completed. -/
def Session.set_completed (s : Session) (now : Nat) (id : String) : Session :=
  { request_manager := s.request_manager.set_completed now id }

/-- Session set_error. -/
def Session.set_error (s : Session) (now : Nat) (id msg : String) : Session :=
  { request_manager := s.request_manager.set_error now id msg }

/-- Session handle_stream_event: delegates to handle_chunk, discarding the
boolean. -/
def Session.handle_stream_event (s : Session) (now : Nat) (id data : String) : Session :=
  { request_manager := (s.request_manager.handle_chunk now id data).1 }

/-- Session cancel_request. -/
def Session.cancel_request (s : Session) (now : Nat) (id : String) : Session :=
  { request_manager := s.request_manager.cancel_request now id }

/-- Session should_cancel. -/
def Session.should_cancel (s : Session) (id : String) : Bool :=
  s.request_manager.should_cancel id

/-- State of the record stored under an id, if any. -/
def stateOfM (m : RequestManager) (id : String) : Option RequestState :=
  (m.requests id).map (fun r => r.state)

/-- Record stored under an id in a session. -/
def recordOf (s : Session) (id : String) : Option RequestInfo :=
  s.request_manager.requests id

/-- Continuation byte test for UTF-8 (binary 10xxxxxx). -/
def isCont (b : Nat) : Bool :=
  decide (128 ≤ b) && decide (b < 192)

/-- UTF-8 validation and decoding, as performed by String from_utf8 in
the Rust standard library: rejects overlong encodings, surrogate code
points and values above 0x10FFFF. -/
def utf8DecodeAux : List Nat → Option (List Char)
  | [] => some []
  | b :: rest =>
    if b < 128 then
      (utf8DecodeAux rest).map (fun cs => Char.ofNat b :: cs)
    else if b < 194 then none
    else if b < 224 then
      match rest with
      | b2 :: rest2 =>
        if isCont b2 then
          (utf8DecodeAux rest2).map (fun cs => Char.ofNat ((b - 192) * 64 + (b2 - 128)) :: cs)
        else none
      | [] => none
    else if b < 240 then
      match rest with
      | b2 :: b3 :: rest3 =>
        let cp := (b - 224) * 4096 + (b2 - 128) * 64 + (b3 - 128)
        if isCont b2 && isCont b3 && decide (2048 ≤ cp) &&
            !(decide (55296 ≤ cp) && decide (cp < 57344)) then
          (utf8DecodeAux rest3).map (fun cs => Char.ofNat cp :: cs)
        else none
      | _ => none
    else if b < 245 then
      match rest with
      | b2 :: b3 :: b4 :: rest4 =>
        let cp := (b - 240) * 262144 + (b2 - 128) * 4096 + (b3 - 128) * 64 + (b4 - 128)
        if isCont b2 && isCont b3 && isCont b4 && decide (65536 ≤ cp) && decide (cp ≤ 1114111) then
          (utf8DecodeAux rest4).map (fun cs => Char.ofNat cp :: cs)
        else none
      | _ => none
    else none

/-- String from_utf8 over a byte list. -/
def string_from_utf8 (bs : List Nat) : Option String :=
  (utf8DecodeAux bs).map (fun cs => String.mk cs)

/-- Byte at an index of the buffer (indices used by the SSE scan are
always in range). -/
def byteAt (l : List Nat) (i : Nat) : Nat :=
  l.getD i 0

/-- The Rust slice buffer from a to b (exclusive). -/
def sliceBytes (l : List Nat) (a b : Nat) : List Nat :=
  (l.drop a).take (b - a)

/-- UTF-8 bytes of an ASCII string, for building concrete inputs. -/
def asciiBytes (s : String) : List Nat :=
  s.data.map Char.toNat

/-- The SSE scan loop of send_stream_request in http.rs, a for loop over
the indices 0 to length minus one: on a double newline flush the raw span
from start_idx as one event; on a single newline with a nonempty span,
decode the line and, when it starts with the data prefix after trimming,
emit the payload with the prefix stripped and trimmed.  The first
argument counts the remaining iterations, so the loop runs exactly
length times when started with the buffer length.  Returns the final
start_idx and the events in emission order. -/
def sseScanGo (buffer : List Nat) : Nat → Nat → Nat → List String → Nat × List String
  | 0, _i, start_idx, events => (start_idx, events)
  | fuel + 1, i, start_idx, events =>
    if i + 1 < buffer.length ∧ byteAt buffer i = 10 ∧ byteAt buffer (i + 1) = 10 then
      let events2 :=
        match string_from_utf8 (sliceBytes buffer start_idx i) with
        | some data => events ++ [data]
        | none => events
      sseScanGo buffer fuel (i + 1) (i + 2) events2
    else if byteAt buffer i = 10 ∧ start_idx < i then
      let events2 :=
        match string_from_utf8 (sliceBytes buffer start_idx i) with
        | some line =>
          let line2 := line.trim
          if line2.startsWith ("data:") then
            events ++ [(line2.drop 5).trim]
          else events
        | none => events
      sseScanGo buffer fuel (i + 1) (i + 1) events2
    else
      sseScanGo buffer fuel (i + 1) start_idx events

/-- The scan over a whole buffer: iterate the loop body once per index. -/
def sseScanLoop (buffer : List Nat) : Nat × List String :=
  sseScanGo buffer buffer.length 0 0 []

/-- One iteration of the SSE branch of the streaming loop: extend the
buffer with the incoming chunk, scan for boundaries, and keep the bytes
after the last boundary for the next read. -/
def sseProcessChunk (buffer chunk : List Nat) : List Nat × List String :=
  let buf := buffer ++ chunk
  let (start_idx, events) := sseScanLoop buf
  let buf2 := if start_idx < buf.length then buf.drop start_idx else []
  (buf2, events)

/-- Feed a sequence of reads through the SSE branch, collecting every
decoded event in the order it is handed to handle_stream_event. -/
def sseFeedAux : List Nat → List (List Nat) → List String
  | _, [] => []
  | buffer, c :: cs =>
    let (b2, evs) := sseProcessChunk buffer c
    evs ++ sseFeedAux b2 cs

/-- Events produced by the SSE decoder for a list of reads, starting from
an empty buffer. -/
def sseFeed (reads : List (List Nat)) : List String :=
  sseFeedAux [] reads

/-- Outcome of one HTTP exchange as seen by execute_request in lib.rs:
either the final status, headers and body, or a transport error
message. -/
inductive ExchangeOutcome where
  | success (status : Nat) (headers : List (String × String)) (body : String)
  | failure (msg : String)

/-- execute_request from lib.rs: on success it writes the response into
the session and returns Ok; any transport failure propagates as Err
before set_response is reached. -/
def execute_request (s : Session) (now : Nat) (id : String)
    (outcome : ExchangeOutcome) : Session × Except String Unit :=
  match outcome with
  | .success status headers body => (s.set_response now id status headers body, Except.ok ())
  | .failure msg => (s, Except.error msg)

/-- The body of the task spawned by request in lib.rs: run the exchange,
call set_error if it failed, then call set_completed unconditionally. -/
def request_spawn_body (s : Session) (now : Nat) (id : String)
    (outcome : ExchangeOutcome) : Session :=
  let (s1, r) := execute_request s now id outcome
  let s2 :=
    match r with
    | Except.error e => s1.set_error now id e
    | Except.ok _ => s1
  s2.set_completed now id

/-- Deliver the SSE events decoded from a list of reads into a session,
one handle_stream_event call per event, in order. -/
def sseDeliverReads (s : Session) (now : Nat) (id : String) (reads : List (List Nat)) : Session :=
  (sseFeed reads).foldl (fun acc d => acc.handle_stream_event now id d) s

/-- A session holding one freshly initialized request. -/
def initSession (now : Nat) (id : String) : Session :=
  ((Session.new now).init_request now id).1

/-- A manager holding one freshly initialized request. -/
def initManager (now : Nat) (id : String) : RequestManager :=
  ((RequestManager.new now).init_request now id).1

/-- The four terminal states of the lifecycle. -/
def isTerminalState (s : RequestState) : Prop :=
  s = RequestState.Complete ∨ s = RequestState.Error ∨
  s = RequestState.Timeout ∨ s = RequestState.Cancelled

/-- A manager holding one completed request: init at time 0, completed at
time 1. -/
def completedManager : RequestManager :=
  (initManager 0 ("r1")).set_completed 1 ("r1")

end AvanteCurl

open AvanteCurl

/-- C1: the claim states that the byte input consisting of data colon
space foo and two newlines yields exactly one decoded event equal to foo,
with the data prefix and whitespace stripped.  False: the double-newline
branch of the scan in http.rs flushes the raw span without stripping, so
the single delivered event is the full line data colon space foo, both
for the one-read input and for the boundary-spanning split input. -/
theorem C1_sse_event_counterexample :
    sseFeed [asciiBytes ("data: foo\n\n")] ≠ [("foo")] ∧
    sseFeed [asciiBytes ("data: f"), asciiBytes ("oo\n\n")] ≠ [("foo")] := by
  decide

/-- C1 amended: both inputs yield exactly one decoded event delivered via
handle_chunk, and bytes after the last boundary stay buffered across
reads; but the event is the raw span data colon space foo, because the
double-newline branch does not strip the prefix (stripping happens only
in the single-newline branch). -/
theorem C1_sse_event_amended :
    sseFeed [asciiBytes ("data: foo\n\n")] = [("data: foo")] ∧
    sseFeed [asciiBytes ("data: f"), asciiBytes ("oo\n\n")] = [("data: foo")] ∧
    (sseProcessChunk [] (asciiBytes ("data: f"))).1 = asciiBytes ("data: f") ∧
    (recordOf (sseDeliverReads (initSession 0 ("r1")) 1 ("r1")
        [asciiBytes ("data: foo\n\n")]) ("r1")).map (fun r => r.body)
      = some (some ("data: foo")) := by
  decide

/-- C2: the claim states that after a transport failure the executor path
calls set_error and never calls set_completed afterward, so a failed
request never ends in state Complete.  The spawned task in request in
lib.rs calls set_completed unconditionally after the error branch, so a
failed exchange ends with state Complete while the error message is still
set: evaluating the spawned body on a failing exchange shows the final
record in state Complete with the transport error recorded. -/
theorem C2_failed_request_completes :
    (recordOf (request_spawn_body (initSession 0 ("r1")) 1 ("r1")
        (ExchangeOutcome.failure ("connection refused"))) ("r1")).map
        (fun r => (r.state, r.error))
      = some (RequestState.Complete, some ("connection refused")) := by
  decide

/-- C3: the claim states that a record in a terminal state is never moved
to another state by any operation other than acknowledge_request, cleanup
or an init_request reset, in particular never from one terminal state to
another and never back to Receiving by handle_chunk.  False: on a record
in state Complete, cancel_request rewrites the state to Cancelled and
handle_chunk rewrites it to Receiving, because both mutate the state
unconditionally whenever the record exists. -/
theorem C3_terminal_counterexample :
    stateOfM completedManager ("r1") = some RequestState.Complete ∧
    stateOfM (completedManager.cancel_request 2 ("r1")) ("r1") = some RequestState.Cancelled ∧
    stateOfM ((completedManager.handle_chunk 2 ("r1") ("x")).1) ("r1") = some RequestState.Receiving := by
  decide

/-- C3 amended: for a record in a terminal state, poll_request (when no
cleanup pass fires) and set_response leave the state unchanged and
acknowledge_request moves it to Acknowledged; but handle_chunk,
cancel_request, set_error and set_completed overwrite the state
unconditionally whenever the record exists, so handle_chunk moves a
terminal record to Receiving and the other three can move one terminal
state to another. -/
theorem C3_terminal_amended :
    ∀ (m : RequestManager) (id : String) (r : RequestInfo) (now status : Nat)
      (headers : List (String × String)) (body data msg : String),
      m.requests id = some r →
      isTerminalState r.state →
      now - m.last_cleanup ≤ m.cleanup_interval →
      stateOfM (m.poll_request now id).1 id = some r.state ∧
      stateOfM (m.set_response now id status headers body) id = some r.state ∧
      stateOfM ((m.handle_chunk now id data).1) id = some RequestState.Receiving ∧
      stateOfM (m.cancel_request now id) id = some RequestState.Cancelled ∧
      stateOfM (m.set_error now id msg) id = some RequestState.Error ∧
      stateOfM (m.set_completed now id) id = some RequestState.Complete ∧
      stateOfM ((m.acknowledge_request now id).1) id = some RequestState.Acknowledged := by
  intro m id r now status headers body data msg h hterm hcl
  have hnc : m.try_cleanup now = m := by
    unfold RequestManager.try_cleanup
    have hx : ¬ (now - m.last_cleanup > m.cleanup_interval) := by omega
    simp [hx]
  have hns : ¬ ((r.state = RequestState.Sending ∨ r.state = RequestState.Receiving) ∧
      now - r.updated_at > 30) := by
    rcases hterm with hs | hs | hs | hs <;> rw [hs] <;> simp
  refine ⟨?_, ?_, ?_, ?_, ?_, ?_, ?_⟩
  · unfold RequestManager.poll_request
    simp [hnc, h, stateOfM, upd, hns]
  · unfold RequestManager.set_response
    simp [h, stateOfM, upd]
  · unfold RequestManager.handle_chunk
    rcases hcb : m.callbacks id with _ | cb
    · simp [h, hcb, stateOfM, upd]
    · rcases hoc : cb.on_chunk <;> simp [h, hcb, hoc, stateOfM, upd]
  · unfold RequestManager.cancel_request
    rcases hc : m.cancellations id with _ | t <;> simp [h, hc, stateOfM, upd]
  · unfold RequestManager.set_error
    rcases hcb : m.callbacks id with _ | cb
    · simp [h, hcb, stateOfM, upd]
    · rcases hoe : cb.on_error <;> simp [h, hcb, hoe, stateOfM, upd]
  · unfold RequestManager.set_completed
    rcases hcb : m.callbacks id with _ | cb
    · simp [h, hcb, stateOfM, upd]
    · rcases hoc : cb.on_complete <;> simp [h, hcb, hoc, stateOfM, upd]
  · unfold RequestManager.acknowledge_request
    rcases hterm with hs | hs | hs | hs <;> simp [h, hs, stateOfM, upd]

/-- C3 amended, evaluated: the completed manager with its Complete record
at time 2. -/
theorem C3_terminal_amended_witness :
    stateOfM (completedManager.poll_request 2 ("r1")).1 ("r1") = some RequestState.Complete ∧
    stateOfM (completedManager.set_response 2 ("r1") 200 [] ("b")) ("r1") = some RequestState.Complete ∧
    stateOfM ((completedManager.handle_chunk 2 ("r1") ("x")).1) ("r1") = some RequestState.Receiving ∧
    stateOfM (completedManager.cancel_request 2 ("r1")) ("r1") = some RequestState.Cancelled ∧
    stateOfM (completedManager.set_error 2 ("r1") ("boom")) ("r1") = some RequestState.Error ∧
    stateOfM (completedManager.set_completed 2 ("r1")) ("r1") = some RequestState.Complete ∧
    stateOfM ((completedManager.acknowledge_request 2 ("r1")).1) ("r1") = some RequestState.Acknowledged :=
  C3_terminal_amended completedManager ("r1")
    { request_id := ("r1"), state := RequestState.Complete, status := none,
      headers := none, body := none, error := none, last_polled := 0,
      created_at := 0, updated_at := 1 }
    2 200 [] ("b") ("x") ("boom") (by decide) (Or.inl rfl) (by decide)

namespace AvanteCurl

/-- One RequestManager operation, as enumerated by the record invariant:
init_request, set_response, handle_chunk, set_completed, set_error,
cancel_request, poll_request, acknowledge_request and the cleanup pass. -/
inductive MgrOp where
  | init (id : String)
  | setResponse (id : String) (status : Nat) (headers : List (String × String)) (body : String)
  | handleChunk (id data : String)
  | setCompleted (id : String)
  | setErrorMsg (id msg : String)
  | cancel (id : String)
  | poll (id : String)
  | acknowledge (id : String)
  | cleanup

/-- Apply one operation to a manager at a given time, keeping the
resulting manager. -/
def applyOp (m : RequestManager) (now : Nat) : MgrOp → RequestManager
  | .init id => (m.init_request now id).1
  | .setResponse id status headers body => m.set_response now id status headers body
  | .handleChunk id data => (m.handle_chunk now id data).1
  | .setCompleted id => m.set_completed now id
  | .setErrorMsg id msg => m.set_error now id msg
  | .cancel id => m.cancel_request now id
  | .poll id => (m.poll_request now id).1
  | .acknowledge id => (m.acknowledge_request now id).1
  | .cleanup => m.cleanup_idle_requests now

/-- The record invariant exactly as the spec words it: an error message
present implies the state is none of Init, Sending, Receiving,
Complete. -/
def claimedRecordErrOk (r : RequestInfo) : Prop :=
  r.error.isSome = true →
    ¬(r.state = RequestState.Init ∨ r.state = RequestState.Sending ∨
      r.state = RequestState.Receiving ∨ r.state = RequestState.Complete)

/-- The claimed invariant over a whole manager. -/
def claimedErrorInvariant (m : RequestManager) : Prop :=
  ∀ id r, m.requests id = some r → claimedRecordErrOk r

/-- The invariant the code actually maintains: an error message present
implies the state is neither Init nor Sending (Receiving and Complete can
carry a stale error because handle_chunk and set_completed do not clear
it). -/
def recordErrOk (r : RequestInfo) : Prop :=
  r.error.isSome = true →
    r.state ≠ RequestState.Init ∧ r.state ≠ RequestState.Sending

/-- The maintained invariant over a whole manager. -/
def ErrInv (m : RequestManager) : Prop :=
  ∀ id r, m.requests id = some r → recordErrOk r

/-- A manager holding one errored request: init at 0, set_error at 1. -/
def errManager : RequestManager :=
  (initManager 0 ("r1")).set_error 1 ("r1") ("boom")

/-- The record produced by feeding a chunk to the errored request. -/
def chunkAfterErrorRecord : RequestInfo :=
  { request_id := ("r1"), state := RequestState.Receiving, status := none,
    headers := none, body := some ("x"), error := some ("boom"),
    last_polled := 0, created_at := 0, updated_at := 2 }

end AvanteCurl

/-- C4: the claim states that every manager operation preserves the
invariant that a set error field implies the state is not Init, Sending,
Receiving or Complete.  False: on a manager satisfying that invariant (a
single errored record), handle_chunk sets the state to Receiving without
clearing the error, producing a record with an error message and state
Receiving. -/
theorem C4_error_invariant_counterexample :
    claimedErrorInvariant errManager ∧
    ¬ claimedErrorInvariant (applyOp errManager 2 (MgrOp.handleChunk ("r1") ("x"))) := by
  constructor
  · intro id r h
    by_cases hid : id = ("r1")
    · subst hid
      have hv : errManager.requests ("r1") =
          some { request_id := ("r1"), state := RequestState.Error, status := none,
                 headers := none, body := none, error := some ("boom"),
                 last_polled := 0, created_at := 0, updated_at := 1 } := by
        decide
      rw [hv] at h
      cases Option.some.inj h
      intro hh
      decide
    · have hv : errManager.requests id = none := by
        simp [errManager, initManager, RequestManager.init_request, RequestManager.new,
              RequestManager.set_error, upd, hid]
      rw [hv] at h
      exact Option.noConfusion h
  · intro hinv
    have hv : (applyOp errManager 2 (MgrOp.handleChunk ("r1") ("x"))).requests ("r1") =
        some chunkAfterErrorRecord := by
      decide
    have h1 := hinv ("r1") chunkAfterErrorRecord hv
    exact (h1 (by decide)) (by decide)

namespace AvanteCurl

lemma ErrInv_of_requests_eq {m m2 : RequestManager}
    (h : m2.requests = m.requests) (hm : ErrInv m) : ErrInv m2 := by
  intro q r hq
  rw [h] at hq
  exact hm q r hq

lemma ErrInv_cleanup (m : RequestManager) (now : Nat) (hm : ErrInv m) :
    ErrInv (m.cleanup_idle_requests now) := by
  intro q r hq
  unfold RequestManager.cleanup_idle_requests at hq
  rcases hreq : m.requests q with _ | r0
  · simp [hreq] at hq
  · simp only [hreq] at hq
    split_ifs at hq with h1 h2
    · cases Option.some.inj hq
      intro hh
      exact ⟨by simp, by simp⟩
    · exact (Option.some.inj hq) ▸ hm q r0 hreq

lemma ErrInv_try_cleanup (m : RequestManager) (now : Nat) (hm : ErrInv m) :
    ErrInv (m.try_cleanup now) := by
  unfold RequestManager.try_cleanup
  split_ifs with h1
  · exact ErrInv_cleanup _ now (ErrInv_of_requests_eq rfl hm)
  · exact hm

end AvanteCurl

/-- C4 amended: every manager operation preserves the invariant that a
set error field implies the state is neither Init nor Sending.  The
stronger claimed form, excluding also Receiving and Complete, is not
preserved because handle_chunk and set_completed keep a stale error. -/
theorem C4_error_invariant_amended :
    ∀ (m : RequestManager) (now : Nat) (op : MgrOp), ErrInv m → ErrInv (applyOp m now op) := by
  intro m now op hm
  cases op with
  | init id =>
    intro q r hq
    simp only [applyOp] at hq
    unfold RequestManager.init_request at hq
    rcases hreq : m.requests id with _ | req
    · simp only [hreq, upd] at hq
      split_ifs at hq with hqid
      · cases Option.some.inj hq
        intro hh
        simp at hh
      · exact hm q r hq
    · simp only [hreq] at hq
      rcases hs : req.state
      all_goals simp only [hs] at hq
      all_goals
        first
        | exact hm q r hq
        | (simp only [upd] at hq
           split_ifs at hq with hqid
           · cases Option.some.inj hq
             intro hh
             simp at hh
           · exact hm q r hq)
  | setResponse id status headers body =>
    intro q r hq
    simp only [applyOp] at hq
    unfold RequestManager.set_response at hq
    rcases hreq : m.requests id with _ | req
    · simp only [hreq] at hq
      exact hm q r hq
    · simp only [hreq, upd] at hq
      split_ifs at hq with hqid
      · cases Option.some.inj hq
        intro hh
        exact hm id req hreq hh
      · exact hm q r hq
  | handleChunk id data =>
    intro q r hq
    simp only [applyOp] at hq
    unfold RequestManager.handle_chunk at hq
    rcases hreq : m.requests id with _ | req
    · simp only [hreq] at hq
      exact hm q r hq
    · rcases hcb : m.callbacks id with _ | cb
      · simp only [hreq, hcb, upd] at hq
        split_ifs at hq with hqid
        · cases Option.some.inj hq
          intro hh
          exact ⟨by simp, by simp⟩
        · exact hm q r hq
      · cases hoc : cb.on_chunk <;>
          (simp only [hreq, hcb, hoc, upd, Bool.false_eq_true, if_false, if_true] at hq
           split_ifs at hq with hqid
           · cases Option.some.inj hq
             intro hh
             exact ⟨by simp, by simp⟩
           · exact hm q r hq)
  | setCompleted id =>
    intro q r hq
    simp only [applyOp] at hq
    unfold RequestManager.set_completed at hq
    rcases hreq : m.requests id with _ | req
    · simp only [hreq] at hq
      exact hm q r hq
    · rcases hcb : m.callbacks id with _ | cb
      · simp only [hreq, hcb, upd] at hq
        split_ifs at hq with hqid
        · cases Option.some.inj hq
          intro hh
          exact ⟨by simp, by simp⟩
        · exact hm q r hq
      · cases hoc : cb.on_complete <;>
          (simp only [hreq, hcb, hoc, upd, Bool.false_eq_true, if_false, if_true] at hq
           split_ifs at hq with hqid
           · cases Option.some.inj hq
             intro hh
             exact ⟨by simp, by simp⟩
           · exact hm q r hq)
  | setErrorMsg id msg =>
    intro q r hq
    simp only [applyOp] at hq
    unfold RequestManager.set_error at hq
    rcases hreq : m.requests id with _ | req
    · rcases hcb : m.callbacks id with _ | cb
      · simp only [hreq, hcb] at hq
        exact hm q r hq
      · cases hoe : cb.on_error <;>
          (simp only [hreq, hcb, hoe, Bool.false_eq_true, if_false, if_true] at hq
           exact hm q r hq)
    · rcases hcb : m.callbacks id with _ | cb
      · simp only [hreq, hcb, upd] at hq
        split_ifs at hq with hqid
        · cases Option.some.inj hq
          intro hh
          exact ⟨by simp, by simp⟩
        · exact hm q r hq
      · cases hoe : cb.on_error <;>
          (simp only [hreq, hcb, hoe, upd, Bool.false_eq_true, if_false, if_true] at hq
           split_ifs at hq with hqid
           · cases Option.some.inj hq
             intro hh
             exact ⟨by simp, by simp⟩
           · exact hm q r hq)
  | cancel id =>
    intro q r hq
    simp only [applyOp] at hq
    unfold RequestManager.cancel_request at hq
    rcases hc : m.cancellations id with _ | t <;>
      (rcases hreq : m.requests id with _ | req
       · simp only [hc, hreq] at hq
         exact hm q r hq
       · simp only [hc, hreq, upd] at hq
         split_ifs at hq with hqid
         · cases Option.some.inj hq
           intro hh
           exact ⟨by simp, by simp⟩
         · exact hm q r hq)
  | poll id =>
    intro q r hq
    simp only [applyOp] at hq
    unfold RequestManager.poll_request at hq
    have hm1 : ErrInv (m.try_cleanup now) := ErrInv_try_cleanup m now hm
    rcases hreq : (m.try_cleanup now).requests id with _ | req
    · simp only [hreq] at hq
      exact hm1 q r hq
    · simp only [hreq, upd] at hq
      split_ifs at hq with hqid hcond
      · cases Option.some.inj hq
        intro hh
        exact ⟨by simp, by simp⟩
      · cases Option.some.inj hq
        intro hh
        exact hm1 id req hreq hh
      · exact hm1 q r hq
  | acknowledge id =>
    intro q r hq
    simp only [applyOp] at hq
    unfold RequestManager.acknowledge_request at hq
    rcases hreq : m.requests id with _ | req
    · simp only [hreq] at hq
      exact hm q r hq
    · rcases hs : req.state
      all_goals simp only [hreq, hs] at hq
      all_goals
        first
        | exact hm q r hq
        | (simp only [upd] at hq
           split_ifs at hq with hqid
           · cases Option.some.inj hq
             intro hh
             exact ⟨by simp, by simp⟩
           · exact hm q r hq)
  | cleanup =>
    exact ErrInv_cleanup m now hm

/-- C4 amended, evaluated: the maintained invariant holds after running
init_request on a fresh manager. -/
theorem C4_error_invariant_amended_witness :
    ErrInv (applyOp (RequestManager.new 0) 0 (MgrOp.init ("r1"))) := by
  have hbase : ErrInv (RequestManager.new 0) := by
    intro q r hq
    exact Option.noConfusion hq
  exact C4_error_invariant_amended (RequestManager.new 0) 0 (MgrOp.init ("r1")) hbase

/-- C5: while a request is active (Init, Sending or Receiving),
init_request fails with the already-in-progress message naming the
current state, and leaves the request map and the cancellation map
exactly as they were, so the existing record and its token are
untouched. -/
theorem C5_init_active_untouched :
    ∀ (m : RequestManager) (id : String) (r : RequestInfo) (now : Nat),
      m.requests id = some r →
      (r.state = RequestState.Init ∨ r.state = RequestState.Sending ∨
       r.state = RequestState.Receiving) →
      (m.init_request now id).2 = Except.error (alreadyInProgressMsg id r.state) ∧
      ((m.init_request now id).1).requests = m.requests ∧
      ((m.init_request now id).1).cancellations = m.cancellations := by
  intro m id r now h hact
  unfold RequestManager.init_request
  rcases hact with hs | hs | hs <;> simp [h, hs]

/-- C5, evaluated: init_request on a freshly initialized (hence Init,
active) request fails and changes nothing. -/
theorem C5_init_active_untouched_witness :
    ((initManager 0 ("r1")).init_request 7 ("r1")).2 =
      Except.error (alreadyInProgressMsg ("r1") RequestState.Init) ∧
    (((initManager 0 ("r1")).init_request 7 ("r1")).1).requests = (initManager 0 ("r1")).requests ∧
    (((initManager 0 ("r1")).init_request 7 ("r1")).1).cancellations =
      (initManager 0 ("r1")).cancellations :=
  C5_init_active_untouched (initManager 0 ("r1")) ("r1")
    { request_id := ("r1"), state := RequestState.Init, status := none, headers := none,
      body := none, error := none, last_polled := 0, created_at := 0, updated_at := 0 }
    7 (by decide) (Or.inl rfl)

/-- C6: on a terminal-state record, init_request succeeds, resets the
record to Init with status, headers, body and error cleared and fresh
poll and update stamps, and installs a brand-new cancellation token that
starts uncancelled and differs from any token previously registered for
that id (tokens carry a strictly growing allocation counter). -/
theorem C6_init_terminal_resets :
    ∀ (m : RequestManager) (id : String) (r : RequestInfo) (now : Nat),
      m.requests id = some r →
      isTerminalState r.state →
      (∀ t0, m.cancellations id = some t0 → t0.tid < m.next_token) →
      (m.init_request now id).2 = Except.ok { tid := m.next_token, cancelled := false } ∧
      ((m.init_request now id).1).requests id =
        some { r with state := RequestState.Init, status := none, headers := none,
                      body := none, error := none, last_polled := now, updated_at := now } ∧
      ((m.init_request now id).1).cancellations id =
        some { tid := m.next_token, cancelled := false } ∧
      (∀ t0, m.cancellations id = some t0 →
        t0 ≠ ({ tid := m.next_token, cancelled := false } : CancelToken)) := by
  intro m id r now h hterm htk
  have hdist : ∀ t0, m.cancellations id = some t0 →
      t0 ≠ ({ tid := m.next_token, cancelled := false } : CancelToken) := by
    intro t0 ht0 heq
    have hlt := htk t0 ht0
    rw [heq] at hlt
    exact lt_irrefl m.next_token hlt
  unfold RequestManager.init_request
  rcases hterm with hs | hs | hs | hs <;>
    exact ⟨by simp [h, hs], by simp [h, hs, upd], by simp [h, hs, upd], hdist⟩

/-- C6, evaluated: resetting the completed request at time 7 yields the
token with counter 1, distinct from the original token with counter 0. -/
theorem C6_init_terminal_resets_witness :
    (completedManager.init_request 7 ("r1")).2 = Except.ok { tid := 1, cancelled := false } ∧
    ((completedManager.init_request 7 ("r1")).1).requests ("r1") =
      some { request_id := ("r1"), state := RequestState.Init, status := none, headers := none,
             body := none, error := none, last_polled := 7, created_at := 0, updated_at := 7 } ∧
    ((completedManager.init_request 7 ("r1")).1).cancellations ("r1") =
      some { tid := 1, cancelled := false } ∧
    (∀ t0, completedManager.cancellations ("r1") = some t0 →
      t0 ≠ ({ tid := 1, cancelled := false } : CancelToken)) :=
  C6_init_terminal_resets completedManager ("r1")
    { request_id := ("r1"), state := RequestState.Complete, status := none, headers := none,
      body := none, error := none, last_polled := 0, created_at := 0, updated_at := 1 }
    7 (by decide) (Or.inl rfl)
    (by
      intro t0 ht0
      have hv : completedManager.cancellations ("r1") =
          some ({ tid := 0, cancelled := false } : CancelToken) := by decide
      rw [hv] at ht0
      cases Option.some.inj ht0
      decide)

namespace AvanteCurl

/-- Whether an on_chunk handler is registered for an id, which is exactly
when handle_chunk reports a handler invocation. -/
def chunkHandlerRegistered (m : RequestManager) (id : String) : Bool :=
  match m.callbacks id with
  | some cb => cb.on_chunk
  | none => false

lemma strEmptyAppend (s : String) : ("") ++ s = s := by
  cases s
  rfl

/-- Handlers with only on_chunk registered. -/
def cbOnChunkOnly : CallbackHandlers :=
  { on_chunk := true, on_complete := false, on_error := false }

/-- Feeding the chunk a, then the chunk b, to a fresh request with an
on_chunk handler registered. -/
def chunkStep1 : RequestManager × Bool :=
  ((initManager 0 ("r1")).set_callbacks ("r1") cbOnChunkOnly).handle_chunk 1 ("r1") ("a")

def chunkStep2 : RequestManager × Bool :=
  chunkStep1.1.handle_chunk 2 ("r1") ("b")

end AvanteCurl

/-- C7: for an existing record, handle_chunk sets the state to Receiving,
appends the data to the body (creating it when absent), stamps
updated_at, and returns true exactly when an on_chunk handler is
registered, in which case exactly one handler invocation with that data
is appended to the trace; for an unknown id it returns false and changes
nothing.  Feeding a then b accumulates body ab with two handler
invocations in order. -/
theorem C7_handle_chunk_appends :
    (∀ (m : RequestManager) (id data : String) (now : Nat) (r : RequestInfo),
      m.requests id = some r →
      ((m.handle_chunk now id data).1).requests id =
        some { r with state := RequestState.Receiving, updated_at := now,
                      body := some ((r.body.getD ("")) ++ data) } ∧
      (m.handle_chunk now id data).2 = chunkHandlerRegistered m id ∧
      ((m.handle_chunk now id data).2 = true →
        ((m.handle_chunk now id data).1).events = m.events ++ [CbEvent.onChunk id data]) ∧
      ((m.handle_chunk now id data).2 = false →
        ((m.handle_chunk now id data).1).events = m.events)) ∧
    (∀ (m : RequestManager) (id data : String) (now : Nat),
      m.requests id = none → m.handle_chunk now id data = (m, false)) ∧
    (chunkStep1.2 = true ∧ chunkStep2.2 = true ∧
     (chunkStep2.1.requests ("r1")).map (fun r => r.body) = some (some ("ab")) ∧
     chunkStep2.1.events = [CbEvent.onChunk ("r1") ("a"), CbEvent.onChunk ("r1") ("b")]) := by
  refine ⟨?_, ?_, by decide⟩
  · intro m id data now r h
    unfold RequestManager.handle_chunk chunkHandlerRegistered
    rcases hcb : m.callbacks id with _ | cb
    · rcases hb : r.body with _ | b <;>
        simp [h, hcb, hb, upd, strEmptyAppend]
    · cases hoc : cb.on_chunk <;>
        (rcases hb : r.body with _ | b <;>
          simp [h, hcb, hoc, hb, upd, strEmptyAppend])
  · intro m id data now h
    unfold RequestManager.handle_chunk
    simp [h]

/-- C7, evaluated: the record-level clause at the first chunk of the
concrete scenario, and the unknown-id clause on a fresh manager. -/
theorem C7_handle_chunk_appends_witness :
    (chunkStep1.1.requests ("r1") =
      some { request_id := ("r1"), state := RequestState.Receiving, status := none,
             headers := none, body := some ("a"), error := none,
             last_polled := 0, created_at := 0, updated_at := 1 } ∧
     chunkStep1.2 = chunkHandlerRegistered
       ((initManager 0 ("r1")).set_callbacks ("r1") cbOnChunkOnly) ("r1") ∧
     (chunkStep1.2 = true →
       chunkStep1.1.events = ((initManager 0 ("r1")).set_callbacks ("r1") cbOnChunkOnly).events ++
         [CbEvent.onChunk ("r1") ("a")]) ∧
     (chunkStep1.2 = false →
       chunkStep1.1.events = ((initManager 0 ("r1")).set_callbacks ("r1") cbOnChunkOnly).events)) ∧
    (RequestManager.new 0).handle_chunk 3 ("ghost") ("x") = (RequestManager.new 0, false) :=
  ⟨C7_handle_chunk_appends.1 ((initManager 0 ("r1")).set_callbacks ("r1") cbOnChunkOnly)
      ("r1") ("a") 1
      { request_id := ("r1"), state := RequestState.Init, status := none, headers := none,
        body := none, error := none, last_polled := 0, created_at := 0, updated_at := 0 }
      (by decide),
   C7_handle_chunk_appends.2.1 (RequestManager.new 0) ("ghost") ("x") 3 rfl⟩

namespace AvanteCurl

lemma cleanup_requests_none (m : RequestManager) (now : Nat) {id : String}
    (h : m.requests id = none) : (m.cleanup_idle_requests now).requests id = none := by
  unfold RequestManager.cleanup_idle_requests
  simp [h]

lemma try_cleanup_requests_none {m : RequestManager} {id : String} (now : Nat)
    (h : m.requests id = none) : (m.try_cleanup now).requests id = none := by
  unfold RequestManager.try_cleanup
  split_ifs with h1
  · exact cleanup_requests_none _ now h
  · exact h

end AvanteCurl

/-- C8: polling an id with no record never creates one and reports
not-found gracefully: the underlying poll_request returns none, while the
Session facade returns a synthesized snapshot carrying the id, state
Error, and the not-found message naming the id; afterward the id is still
absent from the request map. -/
theorem C8_poll_unknown_not_found :
    ∀ (s : Session) (id : String) (now : Nat),
      s.request_manager.requests id = none →
      (s.get_response now id).2.state = RequestState.Error ∧
      (s.get_response now id).2.error = some (notFoundMsg id) ∧
      (s.get_response now id).2.request_id = id ∧
      (s.request_manager.poll_request now id).2 = none ∧
      ((s.get_response now id).1).request_manager.requests id = none := by
  intro s id now h
  have h1 : (s.request_manager.try_cleanup now).requests id = none :=
    try_cleanup_requests_none now h
  have hpoll : s.request_manager.poll_request now id =
      (s.request_manager.try_cleanup now, none) := by
    unfold RequestManager.poll_request
    simp [h1]
  refine ⟨?_, ?_, ?_, ?_, ?_⟩ <;>
    simp [Session.get_response, hpoll, h1]

/-- C8, evaluated: a never-initialized id on a fresh session. -/
theorem C8_poll_unknown_not_found_witness :
    ((Session.new 0).get_response 5 ("ghost")).2.state = RequestState.Error ∧
    ((Session.new 0).get_response 5 ("ghost")).2.error = some (notFoundMsg ("ghost")) ∧
    ((Session.new 0).get_response 5 ("ghost")).2.request_id = ("ghost") ∧
    ((Session.new 0).request_manager.poll_request 5 ("ghost")).2 = none ∧
    (((Session.new 0).get_response 5 ("ghost")).1).request_manager.requests ("ghost") = none :=
  C8_poll_unknown_not_found (Session.new 0) ("ghost") 5 rfl

/-- C9: in a cleanup pass at time now, a record still in an active state
whose last poll is older than the idle timeout is forced to Idle but kept
in the map; a record that is Acknowledged, or settled (terminal or Idle)
and past the idle timeout, is removed together with its cancellation
token and callbacks, and a subsequent poll for that id returns
not-found. -/
theorem C9_cleanup_reclamation :
    ∀ (m : RequestManager) (id : String) (r : RequestInfo) (now now2 : Nat),
      m.requests id = some r →
      ((r.state ∉ cleanupSettledStates → now - r.last_polled > m.idle_timeout →
        (m.cleanup_idle_requests now).requests id =
          some { r with state := RequestState.Idle, updated_at := now }) ∧
       ((r.state = RequestState.Acknowledged ∨
         (r.state ∈ cleanupSettledStates ∧ now - r.last_polled > m.idle_timeout)) →
        (m.cleanup_idle_requests now).requests id = none ∧
        (m.cleanup_idle_requests now).cancellations id = none ∧
        (m.cleanup_idle_requests now).callbacks id = none ∧
        ((m.cleanup_idle_requests now).poll_request now2 id).2 = none)) := by
  intro m id r now now2 h
  constructor
  · intro hact hpast
    have hrm : ¬(r.state = RequestState.Acknowledged ∨
        (now - r.last_polled > m.idle_timeout ∧ r.state ∈ cleanupSettledStates)) := by
      rintro (hA | ⟨_, hmem⟩)
      · exact hact (by rw [hA]; decide)
      · exact hact hmem
    have hidle : now - r.last_polled > m.idle_timeout ∧ r.state ∉ cleanupSettledStates :=
      ⟨hpast, hact⟩
    have hA : ¬ r.state = RequestState.Acknowledged := fun hA => hact (by rw [hA]; decide)
    unfold RequestManager.cleanup_idle_requests
    simp [h, hrm, hidle, hA]
  · intro hrm
    have hcond : r.state = RequestState.Acknowledged ∨
        (now - r.last_polled > m.idle_timeout ∧ r.state ∈ cleanupSettledStates) := by
      rcases hrm with hA | ⟨hmem, hpast⟩
      · exact Or.inl hA
      · exact Or.inr ⟨hpast, hmem⟩
    have hnone : (m.cleanup_idle_requests now).requests id = none := by
      unfold RequestManager.cleanup_idle_requests
      simp [h, hcond]
    refine ⟨hnone, ?_, ?_, ?_⟩
    · unfold RequestManager.cleanup_idle_requests
      simp [h, hcond]
    · unfold RequestManager.cleanup_idle_requests
      simp [h, hcond]
    · have h2 : ((m.cleanup_idle_requests now).try_cleanup now2).requests id = none :=
        try_cleanup_requests_none now2 hnone
      unfold RequestManager.poll_request
      simp [h2]

/-- C9, evaluated: an active request unpolled for 4000 seconds (past the
3600 second default idle timeout) is marked Idle but kept; a completed
one is removed with its token and callbacks and then polls as
not-found. -/
theorem C9_cleanup_reclamation_witness :
    ((initManager 0 ("act")).cleanup_idle_requests 4000).requests ("act") =
      some { request_id := ("act"), state := RequestState.Idle, status := none,
             headers := none, body := none, error := none, last_polled := 0,
             created_at := 0, updated_at := 4000 } ∧
    ((((initManager 0 ("act")).set_completed 1 ("act")).cleanup_idle_requests 4000).requests ("act") = none ∧
     (((initManager 0 ("act")).set_completed 1 ("act")).cleanup_idle_requests 4000).cancellations ("act") = none ∧
     (((initManager 0 ("act")).set_completed 1 ("act")).cleanup_idle_requests 4000).callbacks ("act") = none ∧
     ((((initManager 0 ("act")).set_completed 1 ("act")).cleanup_idle_requests 4000).poll_request 4001 ("act")).2 = none) :=
  ⟨(C9_cleanup_reclamation (initManager 0 ("act")) ("act")
      { request_id := ("act"), state := RequestState.Init, status := none,
        headers := none, body := none, error := none, last_polled := 0,
        created_at := 0, updated_at := 0 }
      4000 0 (by decide)).1 (by decide) (by decide),
   (C9_cleanup_reclamation ((initManager 0 ("act")).set_completed 1 ("act")) ("act")
      { request_id := ("act"), state := RequestState.Complete, status := none,
        headers := none, body := none, error := none, last_polled := 0,
        created_at := 0, updated_at := 1 }
      4000 4001 (by decide)).2 (Or.inr ⟨by decide, by decide⟩)⟩

/-- C10: init_request on a record in state Acknowledged takes the
already-in-progress branch: it returns the in-progress error naming the
acknowledged state and leaves the record and its token binding untouched,
so the id cannot be reused until a cleanup pass removes the record. -/
theorem C10_init_acknowledged_rejected :
    ∀ (m : RequestManager) (id : String) (r : RequestInfo) (now : Nat),
      m.requests id = some r →
      r.state = RequestState.Acknowledged →
      (m.init_request now id).2 =
        Except.error (alreadyInProgressMsg id RequestState.Acknowledged) ∧
      ((m.init_request now id).1).requests id = some r ∧
      ((m.init_request now id).1).cancellations id = m.cancellations id := by
  intro m id r now h hs
  unfold RequestManager.init_request
  simp [h, hs]

/-- C10, evaluated: acknowledging the completed request, then trying to
reinitialize it. -/
theorem C10_init_acknowledged_rejected_witness :
    (((completedManager.acknowledge_request 2 ("r1")).1).init_request 3 ("r1")).2 =
      Except.error (alreadyInProgressMsg ("r1") RequestState.Acknowledged) ∧
    ((((completedManager.acknowledge_request 2 ("r1")).1).init_request 3 ("r1")).1).requests ("r1") =
      some { request_id := ("r1"), state := RequestState.Acknowledged, status := none,
             headers := none, body := none, error := none, last_polled := 0,
             created_at := 0, updated_at := 2 } ∧
    ((((completedManager.acknowledge_request 2 ("r1")).1).init_request 3 ("r1")).1).cancellations ("r1") =
      (completedManager.acknowledge_request 2 ("r1")).1.cancellations ("r1") :=
  C10_init_acknowledged_rejected ((completedManager.acknowledge_request 2 ("r1")).1) ("r1")
    { request_id := ("r1"), state := RequestState.Acknowledged, status := none,
      headers := none, body := none, error := none, last_polled := 0,
      created_at := 0, updated_at := 2 }
    3 (by decide) rfl
